import Mathlib

/-!
Shallow embedding of the data-quality checking engine of this repository
(`src/data_quality/checks.py` and `src/data_quality/expectations.py`).

Modelling conventions:
* A cell value is `Option ℚ`; `none` models SQL NULL.  Timestamps are
  rationals measured in seconds, and the ambient clock `datetime.now()`
  becomes an explicit `now : ℚ` parameter.
* The store (`engine`) is a map from table names to tables; a query that
  references a missing table or column, or that is syntactically malformed
  (an empty column list makes the generated SQL invalid), raises — embedded
  as `Except.error`.  Connection setup itself is not a failure mode of the
  model.
* Python's textual float formatting (`:.2f`, thousands separators) is
  abstracted by `toString` of the exact rational; no claim depends on
  the rendering of numbers inside message strings.
-/

/-- A cell of a table; `none` models SQL NULL. -/
abbrev Cell := Option ℚ

/-- A stored table: a header of column names and rows of cells; in a row,
position `i` holds the value of column `columns[i]` (short rows read as
NULL past their end). -/
structure Table where
  columns : List String
  rows : List (List Cell)
deriving DecidableEq, Repr

/-- The queryable store behind the SQLAlchemy `engine`: a table name either
resolves to a table or does not exist (in which case any query on it
raises). -/
def Store := String → Option Table

/-- Resolving a table name in a query; a missing table raises. -/
def Store.getTable (s : Store) (name : String) : Except String Table :=
  match s name with
  | some t => Except.ok t
  | none => Except.error ("no such table: " ++ name)

/-- Resolving a column name to its index in the header; a missing column
raises when a query references it. -/
def Table.colIdx (t : Table) (c : String) : Except String Nat :=
  match t.columns.findIdx? (fun x => x == c) with
  | some i => Except.ok i
  | none => Except.error ("no such column: " ++ c)

/-- The cell at position `i` of a row (NULL when the row is short). -/
def cellAt (row : List Cell) (i : Nat) : Cell := row.getD i none

/-- The cells of the column with index `i`, down the rows. -/
def Table.colCells (t : Table) (i : Nat) : List Cell :=
  t.rows.map (fun row => cellAt row i)

/-- The non-NULL values among a list of cells (SQL aggregates and
`IS NOT NULL` filters ignore NULLs). -/
def nonNull (cells : List Cell) : List ℚ := cells.filterMap id

/-- Python truthiness of an `Optional[int]` (`if max_count:`): `None` and
`0` are falsy. -/
def pyTruthyInt (o : Option Int) : Bool :=
  match o with
  | some v => v != 0
  | none => false

/-- Python truthiness of an `Optional[List[...]]` (`if allowed_values:`):
`None` and the empty list are falsy. -/
def pyTruthyList (o : Option (List ℚ)) : Bool :=
  match o with
  | some l => !l.isEmpty
  | none => false

/-- `CheckResult` from `src/data_quality/checks.py`: the outcome of one
executed check.  `expected` and `actual` are `Any` in the source and are
rendered here as strings. -/
structure CheckResult where
  check_name : String
  table_name : String
  passed : Bool
  expected : String
  actual : String
  message : String
  severity : String
deriving DecidableEq, Repr

/-- `check_row_count`: `SELECT COUNT(*)`, pass iff `count >= min_count`
and, when a `max_count` is given, `count <= max_count`.  The `expected`
text appends the upper bound only when `max_count` is truthy, as in the
source's `if max_count` f-string. -/
def check_row_count (store : Store) (table_name : String) (min_count : Int)
    (max_count : Option Int) (severity : String) : Except String CheckResult :=
  match store.getTable table_name with
  | Except.error e => Except.error e
  | Except.ok t =>
    let count : Int := t.rows.length
    let passed :=
      decide (count ≥ min_count) &&
        (match max_count with
         | some m => decide (count ≤ m)
         | none => true)
    let expected :=
      ">= " ++ toString min_count ++
        (if pyTruthyInt max_count then
          " and <= " ++ toString (max_count.getD 0)
         else "")
    Except.ok
      { check_name := "row_count"
        table_name := table_name
        passed := passed
        expected := expected
        actual := toString count
        message := "Found " ++ toString count ++ " rows (expected " ++ expected ++ ")"
        severity := severity }

/-- Per-cell null indicator: `CASE WHEN col IS NULL THEN 1 ELSE 0 END`. -/
def nullIndicator (c : Cell) : Nat :=
  match c with
  | none => 1
  | some _ => 0

/-- Total null count of the columns with indices `idxs`:
`SUM(CASE WHEN c1 IS NULL THEN 1 ELSE 0 END + ...)` over all rows. -/
def Table.nullCount (t : Table) (idxs : List Nat) : Nat :=
  (t.rows.map (fun row => (idxs.map (fun i => nullIndicator (cellAt row i))).sum)).sum

/-- `check_null_values`: null rate of the listed columns against a
threshold.  An empty column list makes the generated `SUM()` malformed and
raises; an empty table returns a trivially passing result with severity
forced to `"info"`; otherwise
`null_pct = null_count / (total * len(columns)) * 100` and the check passes
iff `null_pct <= max_null_pct` at the configured severity. -/
def check_null_values (store : Store) (table_name : String) (columns : List String)
    (max_null_pct : ℚ) (severity : String) : Except String CheckResult :=
  if columns.isEmpty then
    Except.error "malformed query: empty column list"
  else
    match store.getTable table_name with
    | Except.error e => Except.error e
    | Except.ok t =>
      match columns.mapM t.colIdx with
      | Except.error e => Except.error e
      | Except.ok idxs =>
        let total := t.rows.length
        let null_count := t.nullCount idxs
        if total = 0 then
          Except.ok
            { check_name := "null_values"
              table_name := table_name
              passed := true
              expected := "<= " ++ toString max_null_pct ++ "%"
              actual := "0%"
              message := "Table is empty, no nulls possible"
              severity := "info" }
        else
          let null_pct : ℚ := ((null_count : ℚ) / ((total : ℚ) * (columns.length : ℚ))) * 100
          Except.ok
            { check_name := "null_values"
              table_name := table_name
              passed := decide (null_pct ≤ max_null_pct)
              expected := "<= " ++ toString max_null_pct ++ "%"
              actual := toString null_pct ++ "%"
              message := "Columns " ++ toString columns ++ ": " ++ toString null_pct ++
                "% null (expected <= " ++ toString max_null_pct ++ "%)"
              severity := severity }

/-- `check_duplicates`: group by the tuple of listed columns, fetch up to
10 groups of cardinality > 1 (`LIMIT 10`), pass iff none were fetched. -/
def check_duplicates (store : Store) (table_name : String) (columns : List String)
    (severity : String) : Except String CheckResult :=
  if columns.isEmpty then
    Except.error "malformed query: empty column list"
  else
    match store.getTable table_name with
    | Except.error e => Except.error e
    | Except.ok t =>
      match columns.mapM t.colIdx with
      | Except.error e => Except.error e
      | Except.ok idxs =>
        let keys := t.rows.map (fun row => idxs.map (fun i => cellAt row i))
        let dupGroups := keys.dedup.filter (fun k => keys.count k > 1)
        let fetched := min dupGroups.length 10
        let passed := fetched == 0
        Except.ok
          { check_name := "no_duplicates"
            table_name := table_name
            passed := passed
            expected := "0 duplicates"
            actual := toString fetched ++ " duplicate groups found"
            message := "Columns " ++ toString columns ++ ": " ++
              (if passed then "No duplicates" else toString fetched ++ "+ duplicate groups")
            severity := severity }

/-- `check_referential_integrity`: count of distinct non-null foreign-key
values with no match in the referenced column (left anti-join), pass iff
zero. -/
def check_referential_integrity (store : Store) (table_name : String) (column : String)
    (reference_table : String) (reference_column : String) (severity : String) :
    Except String CheckResult :=
  match store.getTable table_name with
  | Except.error e => Except.error e
  | Except.ok t =>
    match store.getTable reference_table with
    | Except.error e => Except.error e
    | Except.ok r =>
      match t.colIdx column with
      | Except.error e => Except.error e
      | Except.ok i =>
        match r.colIdx reference_column with
        | Except.error e => Except.error e
        | Except.ok j =>
          let vals := nonNull (t.colCells i)
          let refVals := nonNull (r.colCells j)
          let orphan_count := (vals.dedup.filter (fun v => decide (v ∉ refVals))).length
          Except.ok
            { check_name := "referential_integrity"
              table_name := table_name
              passed := orphan_count == 0
              expected := "0 orphaned records"
              actual := toString orphan_count ++ " orphaned values"
              message := table_name ++ "." ++ column ++ " -> " ++ reference_table ++ "." ++
                reference_column ++ ": " ++ toString orphan_count ++ " orphaned"
              severity := severity }

/-- A row violates the range constraints when its (non-NULL) value is below
the given minimum or above the given maximum (`col < min OR col > max`;
NULL comparisons are UNKNOWN, so NULL rows never count). -/
def violatesRange (min_value max_value : Option ℚ) (c : Cell) : Bool :=
  match c with
  | none => false
  | some v =>
    (match min_value with
     | some m => decide (v < m)
     | none => false) ||
    (match max_value with
     | some m => decide (v > m)
     | none => false)

/-- `check_value_range`: when `allowed_values` is truthy (a non-empty
list), count non-null values outside the allowed set; otherwise, with
neither bound supplied, return a trivially passing `"info"` result without
querying; with at least one bound, count rows violating it. -/
def check_value_range (store : Store) (table_name : String) (column : String)
    (min_value max_value : Option ℚ) (allowed_values : Option (List ℚ))
    (severity : String) : Except String CheckResult :=
  if pyTruthyList allowed_values then
    match store.getTable table_name with
    | Except.error e => Except.error e
    | Except.ok t =>
      match t.colIdx column with
      | Except.error e => Except.error e
      | Except.ok i =>
        let vs := allowed_values.getD []
        let violations := ((nonNull (t.colCells i)).filter (fun v => decide (v ∉ vs))).length
        let passed := violations == 0
        let actual := toString violations ++ " values outside allowed set"
        Except.ok
          { check_name := "value_range"
            table_name := table_name
            passed := passed
            expected := "values in " ++ toString vs
            actual := actual
            message := if passed then column ++ ": All values in range" else column ++ ": " ++ actual
            severity := severity }
  else
    if min_value.isNone && max_value.isNone then
      Except.ok
        { check_name := "value_range"
          table_name := table_name
          passed := true
          expected := "No constraints specified"
          actual := "N/A"
          message := "No range constraints provided"
          severity := "info" }
    else
      match store.getTable table_name with
      | Except.error e => Except.error e
      | Except.ok t =>
        match t.colIdx column with
        | Except.error e => Except.error e
        | Except.ok i =>
          let violations := ((t.colCells i).filter (violatesRange min_value max_value)).length
          let passed := violations == 0
          let actual := toString violations ++ " values out of range"
          Except.ok
            { check_name := "value_range"
              table_name := table_name
              passed := passed
              expected := toString min_value ++ " <= " ++ column ++ " <= " ++ toString max_value
              actual := actual
              message := if passed then column ++ ": All values in range" else column ++ ": " ++ actual
              severity := severity }

/-- `check_freshness`: `MAX(timestamp_column)`; when it is NULL the check
fails at its configured severity with a message noting absent data;
otherwise pass iff the age in hours (`(now - latest) / 3600`) is at most
`max_age_hours`. -/
def check_freshness (store : Store) (now : ℚ) (table_name : String)
    (timestamp_column : String) (max_age_hours : Int) (severity : String) :
    Except String CheckResult :=
  match store.getTable table_name with
  | Except.error e => Except.error e
  | Except.ok t =>
    match t.colIdx timestamp_column with
    | Except.error e => Except.error e
    | Except.ok i =>
      match (nonNull (t.colCells i)).max? with
      | none =>
        Except.ok
          { check_name := "freshness"
            table_name := table_name
            passed := false
            expected := "Data within " ++ toString max_age_hours ++ " hours"
            actual := "No data found"
            message := "No timestamps found in table"
            severity := severity }
      | some latest =>
        let age_hours : ℚ := (now - latest) / 3600
        Except.ok
          { check_name := "freshness"
            table_name := table_name
            passed := decide (age_hours ≤ (max_age_hours : ℚ))
            expected := "<= " ++ toString max_age_hours ++ " hours old"
            actual := toString age_hours ++ " hours old"
            message := "Latest record: " ++ toString latest ++ " (" ++ toString age_hours ++ "h ago)"
            severity := severity }

/-- A registered check specification (`self._checks` entries in
`src/data_quality/expectations.py`): the bound check function together
with its resolved keyword arguments, one variant per check kind. -/
inductive CheckSpec where
  | rowCount (table_name : String) (min_count : Int) (max_count : Option Int)
      (severity : String)
  | nullValues (table_name : String) (columns : List String) (max_null_pct : ℚ)
      (severity : String)
  | duplicates (table_name : String) (columns : List String) (severity : String)
  | referentialIntegrity (table_name : String) (column : String)
      (reference_table : String) (reference_column : String) (severity : String)
  | valueRange (table_name : String) (column : String) (min_value : Option ℚ)
      (max_value : Option ℚ) (allowed_values : Option (List ℚ)) (severity : String)
  | freshness (table_name : String) (timestamp_column : String)
      (max_age_hours : Int) (severity : String)
deriving DecidableEq, Repr

/-- `check["func"].__name__`, used by `run()` for a synthesized failure. -/
def CheckSpec.funcName : CheckSpec → String
  | .rowCount .. => "check_row_count"
  | .nullValues .. => "check_null_values"
  | .duplicates .. => "check_duplicates"
  | .referentialIntegrity .. => "check_referential_integrity"
  | .valueRange .. => "check_value_range"
  | .freshness .. => "check_freshness"

/-- `check["kwargs"].get("table_name", "unknown")`; every builder method
sets a table name. -/
def CheckSpec.tableName : CheckSpec → String
  | .rowCount t .. => t
  | .nullValues t .. => t
  | .duplicates t .. => t
  | .referentialIntegrity t .. => t
  | .valueRange t .. => t
  | .freshness t .. => t

/-- The severity stored in a specification's kwargs. -/
def CheckSpec.sevOf : CheckSpec → String
  | .rowCount _ _ _ s => s
  | .nullValues _ _ _ s => s
  | .duplicates _ _ s => s
  | .referentialIntegrity _ _ _ _ s => s
  | .valueRange _ _ _ _ _ s => s
  | .freshness _ _ _ s => s

/-- `DataQualityChecker`: suite name and the ordered list of registered
check specifications (`self._checks`). -/
structure DataQualityChecker where
  suite_name : String
  checks : List CheckSpec
deriving DecidableEq, Repr

/-- `expect_row_count`: append a row-count specification
(source defaults: `min_count=1`, `max_count=None`, `severity="error"`). -/
def DataQualityChecker.expect_row_count (c : DataQualityChecker) (table_name : String)
    (min_count : Int) (max_count : Option Int) (severity : String) : DataQualityChecker :=
  { c with checks := c.checks ++ [CheckSpec.rowCount table_name min_count max_count severity] }

/-- `expect_no_nulls`: append a null-values specification with
`max_null_pct` fixed to `0.0` (source default: `severity="error"`). -/
def DataQualityChecker.expect_no_nulls (c : DataQualityChecker) (table_name : String)
    (columns : List String) (severity : String) : DataQualityChecker :=
  { c with checks := c.checks ++ [CheckSpec.nullValues table_name columns 0 severity] }

/-- `expect_null_rate`: append a null-values specification with an
explicit threshold (source default: `severity="warning"`). -/
def DataQualityChecker.expect_null_rate (c : DataQualityChecker) (table_name : String)
    (columns : List String) (max_pct : ℚ) (severity : String) : DataQualityChecker :=
  { c with checks := c.checks ++ [CheckSpec.nullValues table_name columns max_pct severity] }

/-- `expect_unique`: append a duplicates specification. -/
def DataQualityChecker.expect_unique (c : DataQualityChecker) (table_name : String)
    (columns : List String) (severity : String) : DataQualityChecker :=
  { c with checks := c.checks ++ [CheckSpec.duplicates table_name columns severity] }

/-- `expect_referential_integrity`: append a referential-integrity
specification. -/
def DataQualityChecker.expect_referential_integrity (c : DataQualityChecker)
    (table_name : String) (column : String) (reference_table : String)
    (reference_column : String) (severity : String) : DataQualityChecker :=
  { c with checks := c.checks ++
      [CheckSpec.referentialIntegrity table_name column reference_table reference_column severity] }

/-- `expect_values_in_set`: append a value-range specification whose kwargs
carry only `allowed_values` (so `min_value`/`max_value` take their `None`
defaults in `check_value_range`). -/
def DataQualityChecker.expect_values_in_set (c : DataQualityChecker) (table_name : String)
    (column : String) (allowed_values : List ℚ) (severity : String) : DataQualityChecker :=
  { c with checks := c.checks ++
      [CheckSpec.valueRange table_name column none none (some allowed_values) severity] }

/-- `expect_value_range`: append a value-range specification whose kwargs
carry only the bounds (so `allowed_values` takes its `None` default). -/
def DataQualityChecker.expect_value_range (c : DataQualityChecker) (table_name : String)
    (column : String) (min_value max_value : Option ℚ) (severity : String) :
    DataQualityChecker :=
  { c with checks := c.checks ++
      [CheckSpec.valueRange table_name column min_value max_value none severity] }

/-- `expect_freshness`: append a freshness specification (source defaults:
`max_age_hours=24`, `severity="warning"`). -/
def DataQualityChecker.expect_freshness (c : DataQualityChecker) (table_name : String)
    (timestamp_column : String) (max_age_hours : Int) (severity : String) :
    DataQualityChecker :=
  { c with checks := c.checks ++
      [CheckSpec.freshness table_name timestamp_column max_age_hours severity] }

/-- `check["func"](**check["kwargs"])`: dispatch a specification to its
bound check function. -/
def runCheck (store : Store) (now : ℚ) : CheckSpec → Except String CheckResult
  | .rowCount t mn mx sev => check_row_count store t mn mx sev
  | .nullValues t cols pct sev => check_null_values store t cols pct sev
  | .duplicates t cols sev => check_duplicates store t cols sev
  | .referentialIntegrity t col rt rc sev => check_referential_integrity store t col rt rc sev
  | .valueRange t col mn mx av sev => check_value_range store t col mn mx av sev
  | .freshness t col age sev => check_freshness store now t col age sev

/-- The `try`/`except` body of `run()`: the check's own result, or, when
its execution raises, the synthesized failing result. -/
def execOne (store : Store) (now : ℚ) (spec : CheckSpec) : CheckResult :=
  match runCheck store now spec with
  | Except.ok r => r
  | Except.error e =>
    { check_name := spec.funcName
      table_name := spec.tableName
      passed := false
      expected := "Check to execute"
      actual := e
      message := "Check failed to execute: " ++ e
      severity := "error" }

/-- `SuiteResult` from `src/data_quality/expectations.py`. -/
structure SuiteResult where
  suite_name : String
  run_timestamp : ℚ
  total_checks : Nat
  passed_checks : Nat
  failed_checks : Nat
  warning_checks : Nat
  results : List CheckResult
deriving DecidableEq, Repr

/-- The `success` property: the suite passes iff no error-severity
failures were counted. -/
def SuiteResult.success (s : SuiteResult) : Bool := s.failed_checks == 0

/-- `DataQualityChecker.run()`: execute every registered specification in
order (exceptions converted to synthesized failures by `execOne`), then
aggregate the counts into a `SuiteResult`. -/
def DataQualityChecker.run (c : DataQualityChecker) (store : Store) (now : ℚ) : SuiteResult :=
  let results := c.checks.map (execOne store now)
  { suite_name := c.suite_name
    run_timestamp := now
    total_checks := results.length
    passed_checks := results.countP (fun r => r.passed)
    failed_checks := results.countP (fun r => !r.passed && r.severity == "error")
    warning_checks := results.countP (fun r => !r.passed && r.severity == "warning")
    results := results }

/-- A store with no tables at all: every query raises. -/
def storeNone : Store := fun _ => none

/-- A specification whose execution raises on `storeNone` (missing table). -/
def specMissing : CheckSpec := CheckSpec.rowCount "events" 1 none "error"

/-- A one-check suite whose single check raises on `storeNone`. -/
def chkMissing : DataQualityChecker := DataQualityChecker.mk "suite" [specMissing]

/-- A 10-row, 2-column table with exactly one NULL cell. -/
def tab10 : Table :=
  { columns := ["a", "b"]
    rows := [[none, some 1], [some 1, some 2], [some 2, some 3], [some 3, some 4],
             [some 4, some 5], [some 5, some 6], [some 6, some 7], [some 7, some 8],
             [some 8, some 9], [some 9, some 10]] }

/-- A store holding `tab10` under the name `"t"`. -/
def store10 : Store := fun n => if n = "t" then some tab10 else none

/-- The null-values result on `tab10` with a 5% threshold. -/
def rTen : CheckResult := execOne store10 0 (CheckSpec.nullValues "t" ["a", "b"] 5 "error")

/-- An empty table with a single timestamp column. -/
def tabEmptyTs : Table := { columns := ["ts"], rows := [] }

/-- A store holding the empty table under the name `"t"`. -/
def storeEmptyTs : Store := fun n => if n = "t" then some tabEmptyTs else none

/-- A suite whose single check fails at severity `"warning"` on
`storeEmptyTs` (0 rows < min_count 1). -/
def chkWarnOnly : DataQualityChecker :=
  (DataQualityChecker.mk "suite" []).expect_row_count "t" 1 none "warning"

/-- A suite configured with a severity outside the documented enumeration. -/
def chkBogusSev : DataQualityChecker :=
  (DataQualityChecker.mk "suite" []).expect_row_count "t" 1 none "critical"

/-- The freshness result on the empty table. -/
def rFreshEmpty : CheckResult := execOne storeEmptyTs 0 (CheckSpec.freshness "t" "ts" 24 "warning")

lemma countP_error_eq_zero_of_all_warning (l : List CheckResult)
    (h : ∀ r ∈ l, r.passed = false → r.severity = "warning") :
    l.countP (fun r => !r.passed && r.severity == "error") = 0 := by
  rw [List.countP_eq_zero]
  intro r hr
  cases hp : r.passed with
  | true => simp [hp]
  | false => simp [hp, h r hr hp]

lemma countP_sev_split (l : List CheckResult)
    (h : ∀ r ∈ l, r.passed = false →
      r.severity = "error" ∨ r.severity = "warning" ∨ r.severity = "info") :
    l.countP (fun r => !r.passed && r.severity == "error") +
      l.countP (fun r => !r.passed && r.severity == "warning") +
      l.countP (fun r => !r.passed && r.severity == "info") =
      l.countP (fun r => !r.passed) := by
  induction l with
  | nil => rfl
  | cons r t ih =>
    have ht : ∀ x ∈ t, x.passed = false →
        x.severity = "error" ∨ x.severity = "warning" ∨ x.severity = "info" :=
      fun x hx => h x (List.mem_cons_of_mem r hx)
    have hih := ih ht
    simp only [List.countP_cons]
    cases hp : r.passed with
    | true => simp [hp, hih]
    | false =>
      rcases h r (List.mem_cons_self r t) hp with he | he | he <;>
        simp [hp, he, hih] <;> omega

/-- Claim C1: `run()` never propagates an exception: for every suite the
result list is as long as the specification list, and whenever executing a
specification raises, the appended result is the synthesized one with
`passed = false`, severity `"error"`, `actual` the error text, and a
message that the check failed to execute. -/
theorem run_never_propagates (c : DataQualityChecker) (store : Store) (now : ℚ) :
    (c.run store now).results.length = c.checks.length ∧
    ∀ spec e, runCheck store now spec = Except.error e →
      (execOne store now spec).passed = false ∧
      (execOne store now spec).severity = "error" ∧
      (execOne store now spec).actual = e ∧
      (execOne store now spec).message = "Check failed to execute: " ++ e := by
  refine ⟨?_, ?_⟩
  · show (c.checks.map (execOne store now)).length = c.checks.length
    exact List.length_map _ _
  · intro spec e h
    unfold execOne
    rw [h]
    exact ⟨rfl, rfl, rfl, rfl⟩

theorem run_never_propagates_witness :
    ((chkMissing.run storeNone 0).results.length = chkMissing.checks.length) ∧
    (execOne storeNone 0 specMissing).passed = false ∧
    (execOne storeNone 0 specMissing).severity = "error" ∧
    (execOne storeNone 0 specMissing).actual = "no such table: events" ∧
    (execOne storeNone 0 specMissing).message =
      "Check failed to execute: " ++ "no such table: events" :=
  ⟨(run_never_propagates chkMissing storeNone 0).1,
   (run_never_propagates chkMissing storeNone 0).2 specMissing "no such table: events" rfl⟩

/-- Claim C2: a suite's `success` holds iff `failed_checks = 0`; in
particular a suite whose only non-passing results have severity
`"warning"` succeeds. -/
theorem run_success_iff_no_failed (c : DataQualityChecker) (store : Store) (now : ℚ) :
    ((c.run store now).success = true ↔ (c.run store now).failed_checks = 0) ∧
    ((∀ r ∈ (c.run store now).results, r.passed = false → r.severity = "warning") →
      (c.run store now).success = true) := by
  refine ⟨by simp [SuiteResult.success], ?_⟩
  intro h
  show (((c.run store now).results.countP
    (fun r => !r.passed && r.severity == "error")) == 0) = true
  rw [countP_error_eq_zero_of_all_warning _ h]
  rfl

theorem run_success_iff_no_failed_witness :
    ((chkWarnOnly.run storeEmptyTs 0).success = true ↔
      (chkWarnOnly.run storeEmptyTs 0).failed_checks = 0) ∧
    (chkWarnOnly.run storeEmptyTs 0).success = true :=
  ⟨(run_success_iff_no_failed chkWarnOnly storeEmptyTs 0).1,
   (run_success_iff_no_failed chkWarnOnly storeEmptyTs 0).2 (by decide)⟩

/-- Claim C3: the aggregated counts are exactly the counts of passing
results, of failing error-severity results, and of failing
warning-severity results; and when every failing result carries one of the
three documented severities, error-, warning- and info-severity failures
partition the failures, so an info-severity failure increments neither
`failed_checks` nor `warning_checks`. -/
theorem run_counts_by_severity (c : DataQualityChecker) (store : Store) (now : ℚ) :
    ((c.run store now).passed_checks =
      (c.run store now).results.countP (fun r => r.passed)) ∧
    ((c.run store now).failed_checks =
      (c.run store now).results.countP (fun r => !r.passed && r.severity == "error")) ∧
    ((c.run store now).warning_checks =
      (c.run store now).results.countP (fun r => !r.passed && r.severity == "warning")) ∧
    ((∀ r ∈ (c.run store now).results, r.passed = false →
        r.severity = "error" ∨ r.severity = "warning" ∨ r.severity = "info") →
      (c.run store now).failed_checks + (c.run store now).warning_checks +
          (c.run store now).results.countP (fun r => !r.passed && r.severity == "info") =
        (c.run store now).results.countP (fun r => !r.passed)) := by
  refine ⟨rfl, rfl, rfl, ?_⟩
  intro h
  exact countP_sev_split _ h

theorem run_counts_by_severity_witness :
    ((chkWarnOnly.run storeEmptyTs 0).passed_checks =
      (chkWarnOnly.run storeEmptyTs 0).results.countP (fun r => r.passed)) ∧
    ((chkWarnOnly.run storeEmptyTs 0).failed_checks + (chkWarnOnly.run storeEmptyTs 0).warning_checks +
        (chkWarnOnly.run storeEmptyTs 0).results.countP (fun r => !r.passed && r.severity == "info") =
      (chkWarnOnly.run storeEmptyTs 0).results.countP (fun r => !r.passed)) :=
  ⟨(run_counts_by_severity chkWarnOnly storeEmptyTs 0).1,
   (run_counts_by_severity chkWarnOnly storeEmptyTs 0).2.2.2 (by decide)⟩

/-- Claim C9: the results of `run()` are, position by position, the
executions of the registered specifications in registration order,
independent of individual outcomes. -/
theorem run_results_follow_registration_order (c : DataQualityChecker) (store : Store)
    (now : ℚ) :
    (c.run store now).results = c.checks.map (execOne store now) ∧
    ∀ i : Nat, (c.run store now).results[i]? = (c.checks[i]?).map (execOne store now) := by
  refine ⟨rfl, ?_⟩
  intro i
  show (c.checks.map (execOne store now))[i]? = (c.checks[i]?).map (execOne store now)
  exact List.getElem?_map (execOne store now) c.checks i

lemma check_row_count_sev (store : Store) (t : String) (mn : Int) (mx : Option Int)
    (sev : String) (r : CheckResult) (h : check_row_count store t mn mx sev = Except.ok r) :
    r.severity = sev := by
  unfold check_row_count at h
  split at h
  · simp at h
  · simp only [Except.ok.injEq] at h
    subst h
    rfl

lemma check_null_values_sev (store : Store) (t : String) (cols : List String) (pct : ℚ)
    (sev : String) (r : CheckResult) (h : check_null_values store t cols pct sev = Except.ok r) :
    r.severity = sev ∨ r.severity = "info" := by
  unfold check_null_values at h
  split at h
  · simp at h
  · split at h
    · simp at h
    · split at h
      · simp at h
      · dsimp only at h
        split at h
        · simp only [Except.ok.injEq] at h
          subst h
          right
          rfl
        · simp only [Except.ok.injEq] at h
          subst h
          left
          rfl

lemma check_duplicates_sev (store : Store) (t : String) (cols : List String)
    (sev : String) (r : CheckResult) (h : check_duplicates store t cols sev = Except.ok r) :
    r.severity = sev := by
  unfold check_duplicates at h
  split at h
  · simp at h
  · split at h
    · simp at h
    · split at h
      · simp at h
      · simp only [Except.ok.injEq] at h
        subst h
        rfl

lemma check_referential_integrity_sev (store : Store) (t col rt rc : String)
    (sev : String) (r : CheckResult)
    (h : check_referential_integrity store t col rt rc sev = Except.ok r) :
    r.severity = sev := by
  unfold check_referential_integrity at h
  split at h
  · simp at h
  · split at h
    · simp at h
    · split at h
      · simp at h
      · split at h
        · simp at h
        · simp only [Except.ok.injEq] at h
          subst h
          rfl

lemma check_value_range_sev (store : Store) (t col : String) (mn mx : Option ℚ)
    (av : Option (List ℚ)) (sev : String) (r : CheckResult)
    (h : check_value_range store t col mn mx av sev = Except.ok r) :
    r.severity = sev ∨ r.severity = "info" := by
  unfold check_value_range at h
  split at h
  · split at h
    · simp at h
    · split at h
      · simp at h
      · simp only [Except.ok.injEq] at h
        subst h
        left
        rfl
  · split at h
    · simp only [Except.ok.injEq] at h
      subst h
      right
      rfl
    · split at h
      · simp at h
      · split at h
        · simp at h
        · simp only [Except.ok.injEq] at h
          subst h
          left
          rfl

lemma check_freshness_sev (store : Store) (now : ℚ) (t tsc : String) (age : Int)
    (sev : String) (r : CheckResult)
    (h : check_freshness store now t tsc age sev = Except.ok r) :
    r.severity = sev := by
  unfold check_freshness at h
  split at h
  · simp at h
  · split at h
    · simp at h
    · split at h
      · simp only [Except.ok.injEq] at h
        subst h
        rfl
      · simp only [Except.ok.injEq] at h
        subst h
        rfl

lemma execOne_sev (store : Store) (now : ℚ) (spec : CheckSpec) :
    (execOne store now spec).severity = spec.sevOf ∨
      (execOne store now spec).severity = "info" ∨
      (execOne store now spec).severity = "error" := by
  unfold execOne
  cases hrc : runCheck store now spec with
  | error e => right; right; rfl
  | ok r =>
    cases spec with
    | rowCount t mn mx sev =>
      exact Or.inl (check_row_count_sev store t mn mx sev r hrc)
    | nullValues t cols pct sev =>
      rcases check_null_values_sev store t cols pct sev r hrc with h | h
      · exact Or.inl h
      · exact Or.inr (Or.inl h)
    | duplicates t cols sev =>
      exact Or.inl (check_duplicates_sev store t cols sev r hrc)
    | referentialIntegrity t col rt rc sev =>
      exact Or.inl (check_referential_integrity_sev store t col rt rc sev r hrc)
    | valueRange t col mn mx av sev =>
      rcases check_value_range_sev store t col mn mx av sev r hrc with h | h
      · exact Or.inl h
      · exact Or.inr (Or.inl h)
    | freshness t tsc age sev =>
      exact Or.inl (check_freshness_sev store now t tsc age sev r hrc)

/-- Claim C4 counterexample: configuring a check with severity
`"critical"` — accepted by the public builder interface — yields a result
whose severity is outside the documented enumeration. -/
theorem run_severity_counterexample :
    ∃ r ∈ (chkBogusSev.run store10 0).results,
      r.severity ≠ "error" ∧ r.severity ≠ "warning" ∧ r.severity ≠ "info" := by
  decide

/-- Claim C4 (amended): every produced result's severity is the configured
one, or `"info"` (trivial results), or `"error"` (the exception handler);
hence when every registered specification's severity is one of `"error"`,
`"warning"`, `"info"`, so is the severity of every produced result. -/
theorem run_severity_closed_of_configured (c : DataQualityChecker) (store : Store) (now : ℚ)
    (h : ∀ spec ∈ c.checks,
      spec.sevOf = "error" ∨ spec.sevOf = "warning" ∨ spec.sevOf = "info") :
    ∀ r ∈ (c.run store now).results,
      r.severity = "error" ∨ r.severity = "warning" ∨ r.severity = "info" := by
  intro r hr
  have hm : r ∈ c.checks.map (execOne store now) := hr
  rw [List.mem_map] at hm
  obtain ⟨spec, hs, hspec⟩ := hm
  rcases execOne_sev store now spec with h1 | h1 | h1
  · rw [← hspec, h1]
    exact h spec hs
  · rw [← hspec, h1]
    right; right; rfl
  · rw [← hspec, h1]
    left; rfl

theorem run_severity_closed_witness :
    (execOne storeEmptyTs 0 (CheckSpec.rowCount "t" 1 none "warning")).severity = "error" ∨
    (execOne storeEmptyTs 0 (CheckSpec.rowCount "t" 1 none "warning")).severity = "warning" ∨
    (execOne storeEmptyTs 0 (CheckSpec.rowCount "t" 1 none "warning")).severity = "info" :=
  run_severity_closed_of_configured chkWarnOnly storeEmptyTs 0 (by decide)
    (execOne storeEmptyTs 0 (CheckSpec.rowCount "t" 1 none "warning"))
    (by exact List.Mem.head _)

/-- Claim C5: when `check_null_values` returns a result, an empty table
gives a trivially passing result with severity forced to `"info"`, and a
non-empty table passes exactly when
`null_count / (total_rows * num_columns) * 100 <= max_null_pct`, at the
configured severity. -/
theorem check_null_values_formula (store : Store) (tname : String) (cols : List String)
    (maxPct : ℚ) (sev : String) (tab : Table) (idxs : List Nat) (r : CheckResult)
    (htab : store tname = some tab)
    (hidx : cols.mapM tab.colIdx = Except.ok idxs)
    (hr : check_null_values store tname cols maxPct sev = Except.ok r) :
    (tab.rows.length = 0 → r.passed = true ∧ r.severity = "info") ∧
    (tab.rows.length ≠ 0 →
      ((r.passed = true ↔
        ((tab.nullCount idxs : ℚ) / ((tab.rows.length : ℚ) * (cols.length : ℚ))) * 100 ≤ maxPct) ∧
       r.severity = sev)) := by
  have hget : store.getTable tname = Except.ok tab := by
    unfold Store.getTable
    rw [htab]
  unfold check_null_values at hr
  rw [hget] at hr
  split at hr
  · simp at hr
  · dsimp only at hr
    rw [hidx] at hr
    dsimp only at hr
    split at hr
    · rename_i h0
      simp only [Except.ok.injEq] at hr
      subst hr
      exact ⟨fun _ => ⟨rfl, rfl⟩, fun hne => absurd h0 hne⟩
    · rename_i h0
      simp only [Except.ok.injEq] at hr
      subst hr
      refine ⟨fun hz => absurd hz h0, fun _ => ⟨?_, rfl⟩⟩
      exact decide_eq_true_iff

theorem check_null_values_formula_witness :
    store10 "t" = some tab10 ∧
    (["a", "b"].mapM tab10.colIdx = Except.ok [0, 1]) ∧
    check_null_values store10 "t" ["a", "b"] 5 "error" = Except.ok rTen ∧
    tab10.rows.length ≠ 0 ∧
    ((rTen.passed = true ↔
        ((tab10.nullCount [0, 1] : ℚ) /
          ((tab10.rows.length : ℚ) * ((["a", "b"] : List String).length : ℚ))) * 100 ≤ 5) ∧
      rTen.severity = "error") :=
  ⟨rfl, rfl, rfl, by decide,
   (check_null_values_formula store10 "t" ["a", "b"] 5 "error" tab10 [0, 1] rTen
      rfl rfl rfl).2 (by decide)⟩

/-- Claim C6: when `check_freshness` returns a result, an absent maximum
timestamp gives a failing result at the configured severity (not forced to
`"error"`) with a message noting absent data; a present maximum timestamp
passes exactly when its age in hours is at most `max_age_hours`. -/
theorem check_freshness_empty_and_age (store : Store) (now : ℚ) (tname tsc : String)
    (maxAge : Int) (sev : String) (tab : Table) (i : Nat) (r : CheckResult)
    (htab : store tname = some tab)
    (hi : tab.colIdx tsc = Except.ok i)
    (hr : check_freshness store now tname tsc maxAge sev = Except.ok r) :
    ((nonNull (tab.colCells i)).max? = none →
      r.passed = false ∧ r.severity = sev ∧ r.message = "No timestamps found in table") ∧
    (∀ ts, (nonNull (tab.colCells i)).max? = some ts →
      ((r.passed = true ↔ (now - ts) / 3600 ≤ (maxAge : ℚ)) ∧ r.severity = sev)) := by
  have hget : store.getTable tname = Except.ok tab := by
    unfold Store.getTable
    rw [htab]
  unfold check_freshness at hr
  rw [hget] at hr
  dsimp only at hr
  rw [hi] at hr
  dsimp only at hr
  cases hmax : (nonNull (tab.colCells i)).max? with
  | none =>
    rw [hmax] at hr
    simp only [Except.ok.injEq] at hr
    subst hr
    exact ⟨fun _ => ⟨rfl, rfl, rfl⟩, fun ts hts => Option.noConfusion hts⟩
  | some ts0 =>
    rw [hmax] at hr
    dsimp only at hr
    simp only [Except.ok.injEq] at hr
    subst hr
    refine ⟨fun h0 => Option.noConfusion h0, fun ts hts => ?_⟩
    injection hts with hts
    subst hts
    exact ⟨decide_eq_true_iff, rfl⟩

theorem check_freshness_empty_witness :
    storeEmptyTs "t" = some tabEmptyTs ∧
    tabEmptyTs.colIdx "ts" = Except.ok 0 ∧
    check_freshness storeEmptyTs 0 "t" "ts" 24 "warning" = Except.ok rFreshEmpty ∧
    (nonNull (tabEmptyTs.colCells 0)).max? = none ∧
    (rFreshEmpty.passed = false ∧ rFreshEmpty.severity = "warning" ∧
      rFreshEmpty.message = "No timestamps found in table") :=
  ⟨rfl, rfl, rfl, rfl,
   (check_freshness_empty_and_age storeEmptyTs 0 "t" "ts" 24 "warning" tabEmptyTs 0
      rFreshEmpty rfl rfl rfl).1 rfl⟩

/-- Claim C7: `check_value_range` with neither bound nor allowed set never
raises: it returns (and `run()` records) a trivially passing result with
severity `"info"` saying no range constraints were provided. -/
theorem check_value_range_no_constraints (store : Store) (tname col sev : String) :
    check_value_range store tname col none none none sev =
      Except.ok
        { check_name := "value_range", table_name := tname, passed := true,
          expected := "No constraints specified", actual := "N/A",
          message := "No range constraints provided", severity := "info" } ∧
    ∀ now : ℚ, execOne store now (CheckSpec.valueRange tname col none none none sev) =
      { check_name := "value_range", table_name := tname, passed := true,
        expected := "No constraints specified", actual := "N/A",
        message := "No range constraints provided", severity := "info" } :=
  ⟨rfl, fun _ => rfl⟩

/-- Claim C8: `expect_no_nulls` registers exactly the specification that
`expect_null_rate` registers with threshold `0.0`: the checkers are equal,
the specification dispatches to `check_null_values`, and running either
suite gives the same `SuiteResult`. -/
theorem expect_no_nulls_eq_zero_null_rate (c : DataQualityChecker) (t : String)
    (cols : List String) (sev : String) (store : Store) (now : ℚ) :
    c.expect_no_nulls t cols sev = c.expect_null_rate t cols 0 sev ∧
    runCheck store now (CheckSpec.nullValues t cols 0 sev) =
      check_null_values store t cols 0 sev ∧
    (c.expect_no_nulls t cols sev).run store now =
      (c.expect_null_rate t cols 0 sev).run store now :=
  ⟨rfl, rfl, rfl⟩

/-- Claim C10: `expect_values_in_set` with an empty allowed list registers
a value-range specification whose allowed set is the (falsy) empty list,
so `check_value_range` skips the set-membership branch and returns the
trivially passing `"info"` result about absent range constraints, for
every store. -/
theorem expect_values_in_set_empty_trivial (c : DataQualityChecker) (store : Store)
    (tname col sev : String) :
    (c.expect_values_in_set tname col [] sev).checks =
      c.checks ++ [CheckSpec.valueRange tname col none none (some []) sev] ∧
    pyTruthyList (some []) = false ∧
    check_value_range store tname col none none (some []) sev =
      Except.ok
        { check_name := "value_range", table_name := tname, passed := true,
          expected := "No constraints specified", actual := "N/A",
          message := "No range constraints provided", severity := "info" } :=
  ⟨rfl, rfl, rfl⟩
